import Mathlib

/-!
Verification of the `NormalizedEnvWrapper` module
(`trust_region_projections_step/trajectories/normalized_env_wrapper.py`).

The wrapper composes two normalizer objects around an externally provided
vectorized environment set.  The environment collaborator (`SubprocVecEnv`,
`fancy_gym.make`) is external and is modelled abstractly as a record of
deterministic functions.  The normalizer module
(`trust_region_projections_step.trajectories.env_normalizer`, classes
`BaseNormalizer` and `MovingAvgNormalizer`) belongs to this repository but its
source is not available here; it is modelled from the specification.

Observations and rewards are batched over parallel environment slots; the
per-slot observation and reward payloads are abstracted as single rational
numbers (the wrapper treats the per-slot payload opaquely, so no structure is
lost for the properties proved here).  Python object references (`self.envs`,
`self.envs_test` alias one object) are modelled by a small heap: a list of
environment states indexed by natural-number references.
-/

/-- Modelled from the spec (§3 DATA MODEL): running per-feature accumulators of
a normalizer — count, mean, variance — for the scalar (`shape=()`) case used by
the reward normalizer.  The class lives in the `env_normalizer` module of the repository, which is not part of the available source. -/
structure RunningMoments where
  count : Nat
  mean : ℚ
  var : ℚ
  deriving Repr, DecidableEq

/-- Modelled from the spec (§3 DATA MODEL): immutable normalizer
configuration — `center`, `scale`, discount `gamma`, optional symmetric
clipping bound `clip`. -/
structure NormalizerConfig where
  center : Bool
  scale : Bool
  gamma : ℚ
  clip : Option ℚ
  deriving Repr, DecidableEq

/-- Modelled from the spec (§3 EpisodeState, §4.1): the mutable state of a
`MovingAvgNormalizer` — shared `RunningMoments` plus per-parallel-slot
transient accumulators (discounted-return trackers) that are reset on `done`
signals while the shared moments persist. -/
structure MovingAvgState where
  moments : RunningMoments
  perSlot : List ℚ
  deriving Repr, DecidableEq

/-- The zero state of `RunningMoments` at normalizer construction
(count 0, mean 0, variance 0). -/
def RunningMoments.zero : RunningMoments := ⟨0, 0, 0⟩

/-- The zero state of a `MovingAvgNormalizer` at construction / full reset. -/
def MovingAvgState.zero : MovingAvgState := ⟨RunningMoments.zero, []⟩

/-- Modelled from the spec (§4.1): executable stand-in for the square root
used when scaling by the standard deviation.  The spec (§9) leaves the exact
numerics of the `MovingAvgNormalizer` unspecified; no theorem below depends on
the value of this function, only on which configuration branches execute. -/
def ratSqrt (q : ℚ) : ℚ := (Nat.sqrt q.num.toNat : ℚ) / (Nat.sqrt q.den : ℚ)

/-- Modelled from the spec (§4.1): small epsilon floor guarding the division
by a near-zero standard deviation. -/
def epsFloor : ℚ := 1 / 100000000

/-- Modelled from the spec (§4.1): one Welford-style incremental update of the
running moments with a new scalar sample; the first-ever update sets the mean
to the sample and the variance to zero, and the variance is clamped at zero. -/
def RunningMoments.push (m : RunningMoments) (x : ℚ) : RunningMoments :=
  let n : Nat := m.count + 1
  let d : ℚ := x - m.mean
  let mean1 : ℚ := m.mean + d / (n : ℚ)
  let var1 : ℚ := ((m.count : ℚ) * m.var + d * (x - mean1)) / (n : ℚ)
  ⟨n, mean1, max var1 0⟩

/-- Modelled from the spec (§4.1, §3): fold the discounted per-slot
accumulators forward with the incoming batch (`acc_i := gamma * acc_i + x_i`),
treating slots with no history yet as zero. -/
def decayAccumulate (gamma : ℚ) (acc : List ℚ) (x : List ℚ) : List ℚ :=
  (List.range x.length).map (fun i => gamma * acc.getD i 0 + x.getD i 0)

/-- Modelled from the spec (§4.1): the moment-update half of
`MovingAvgNormalizer.update` — advance the per-slot discounted accumulators
and push each accumulated value into the shared running moments. -/
def MovingAvgState.update (gamma : ℚ) (st : MovingAvgState) (x : List ℚ) :
    MovingAvgState :=
  let acc := decayAccumulate gamma st.perSlot x
  ⟨acc.foldl RunningMoments.push st.moments, acc⟩

/-- Modelled from the spec (§4.1): the transform half of a normalizer update —
subtract the mean when `center`, divide by the (floored) standard deviation
when `scale`, and clamp to `[-clip, clip]` when `clip` is set. -/
def normalizeWith (cfg : NormalizerConfig) (m : RunningMoments) (x : List ℚ) :
    List ℚ :=
  let c := if cfg.center then x.map (fun v => v - m.mean) else x
  let s := if cfg.scale then c.map (fun v => v / max (ratSqrt m.var) epsFloor)
           else c
  match cfg.clip with
  | none => s
  | some cl => s.map (fun v => max (-cl) (min cl v))

/-- Modelled from the spec (§4.1, §2): a normalizer object as stored by the
wrapper — either the no-op `BaseNormalizer` or a `MovingAvgNormalizer`
carrying its configuration and mutable state.  This mirrors the dynamic
dispatch between the two classes of the `env_normalizer` module of the
repository, whose source is not available here. -/
inductive NormObj where
  | base : NormObj
  | movingAvg (cfg : NormalizerConfig) (st : MovingAvgState) : NormObj
  deriving Repr, DecidableEq

/-- Modelled from the spec (§4.1): `normalizer(sample, update)` — returns the
transformed sample and the normalizer object afterwards.  `BaseNormalizer` is
the identity and touches nothing; `MovingAvgNormalizer` first updates its
moments (only when `update` is true, so evaluation does not leak into training
statistics), then applies the transform. -/
def NormObj.call (n : NormObj) (x : List ℚ) (update : Bool) :
    List ℚ × NormObj :=
  match n with
  | .base => (x, .base)
  | .movingAvg cfg st =>
      let st1 := if update then st.update cfg.gamma x else st
      (normalizeWith cfg st1.moments x, .movingAvg cfg st1)

/-- Modelled from the spec (§4.1): `normalizer.reset(done_mask)`.  With no
mask, everything returns to the zero state; with a per-slot mask, only the
transient per-slot accumulators of finished slots are cleared and the shared
moments persist.  `BaseNormalizer.reset` is a no-op. -/
def NormObj.reset (n : NormObj) (mask : Option (List Bool)) : NormObj :=
  match n with
  | .base => .base
  | .movingAvg cfg st =>
      match mask with
      | none => .movingAvg cfg MovingAvgState.zero
      | some dones =>
          .movingAvg cfg
            ⟨st.moments,
             (List.range st.perSlot.length).map
               (fun i => if dones.getD i false then 0 else st.perSlot.getD i 0)⟩

/-- External parallel environment set collaborator (spec §6): batched `step`
and `reset` over an abstract environment-set state `E`, plus the space
descriptors.  `Act` is the per-slot action payload, `Info` the per-slot info
payload, `Sp` the space-descriptor type.  Everything is deterministic state
passing; the subprocess transport is out of scope. -/
structure VecEnv (E Act Info Sp : Type) where
  stepFn : E → List Act → E × List ℚ × List ℚ × List Bool × List Info
  resetFn : E → E × List ℚ
  obsSpace : E → Sp
  actSpace : E → Sp

/-- The state of a `NormalizedEnvWrapper` object
(`normalized_env_wrapper.py`, lines 50-101).  `heap` holds the environment-set
objects allocated by the constructor; `envs` and `envs_test` are references
into it (`envs` is an `Option` because the space properties at lines 139-151
test it against `None`).  The configuration flags mirror the attributes stored
at lines 68 and 76-79. -/
structure NormalizedEnvWrapper (E : Type) where
  heap : List E
  envs : Option Nat
  envs_test : Nat
  max_episode_length : Nat
  norm_obs : Bool
  clip_obs : Option ℚ
  norm_rewards : Bool
  clip_rewards : Option ℚ
  state_normalizer : NormObj
  reward_normalizer : NormObj
  last_obs : Option (List ℚ)
  deriving Repr, DecidableEq

/-- `NormalizedEnvWrapper.__init__` (lines 50-101).  `subproc n_envs norm_obs`
stands for `SubprocVecEnv` applied to the `n_envs` factory closures, each of
which forwards `normalize_obs=norm_obs` to `fancy_gym.make` (line 70-73); the
remaining factory arguments (`env_id`, `seed`, `max_episode_length`,
`kwargs`) are absorbed into the external collaborator.  One environment-set
object is allocated and both `envs` and `envs_test` refer to it (lines 73-74).
The state normalizer is `BaseNormalizer()` unconditionally (line 84; the
`MovingAvgNormalizer` wrapping at lines 86-89 is commented out); the reward
normalizer is a `MovingAvgNormalizer` with `center=False, scale=True` exactly
when `norm_rewards` is set (lines 92-95).  When `n_envs` is nonzero the
constructor resets the environment set and seeds `last_obs` with the raw
initial observations (lines 100-101). -/
def mkNormalizedEnvWrapper {E Act Info Sp : Type} (veh : VecEnv E Act Info Sp)
    (subproc : Nat → Bool → E) (n_envs : Nat) (max_episode_length : Nat)
    (gamma : ℚ) (norm_obs : Bool) (clip_obs : Option ℚ) (norm_rewards : Bool)
    (clip_rewards : Option ℚ) : NormalizedEnvWrapper E :=
  let e0 := subproc n_envs norm_obs
  let rn : NormObj :=
    if norm_rewards then
      .movingAvg ⟨false, true, gamma, clip_rewards⟩ MovingAvgState.zero
    else .base
  if n_envs ≠ 0 then
    let r := veh.resetFn e0
    { heap := [r.1], envs := some 0, envs_test := 0,
      max_episode_length := max_episode_length, norm_obs := norm_obs,
      clip_obs := clip_obs, norm_rewards := norm_rewards,
      clip_rewards := clip_rewards, state_normalizer := .base,
      reward_normalizer := rn, last_obs := some r.2 }
  else
    { heap := [e0], envs := some 0, envs_test := 0,
      max_episode_length := max_episode_length, norm_obs := norm_obs,
      clip_obs := clip_obs, norm_rewards := norm_rewards,
      clip_rewards := clip_rewards, state_normalizer := .base,
      reward_normalizer := rn, last_obs := none }

/-- `NormalizedEnvWrapper.step` (lines 103-113): step the training environment
set, normalize observations and rewards with `update=True`, then reset the
per-slot transient state of both normalizers with the `dones` mask, store and
return the normalized observations together with the normalized rewards and
the raw `dones`/`infos`.  `none` models the Python `AttributeError`/failure
when the references are dead. -/
def NormalizedEnvWrapper.step {E Act Info Sp : Type}
    (veh : VecEnv E Act Info Sp) (w : NormalizedEnvWrapper E)
    (actions : List Act) :
    Option (NormalizedEnvWrapper E × List ℚ × List ℚ × List Bool × List Info) := do
  let i ← w.envs
  let e ← w.heap.get? i
  let (e1, obs, rews, dones, infos) := veh.stepFn e actions
  let (lastObs, sn1) := w.state_normalizer.call obs true
  let (rewsNorm, rn1) := w.reward_normalizer.call rews true
  let sn2 := sn1.reset (some dones)
  let rn2 := rn1.reset (some dones)
  some ({ w with
          heap := w.heap.set i e1
          state_normalizer := sn2
          reward_normalizer := rn2
          last_obs := some lastObs },
        lastObs, rewsNorm, dones, infos)

/-- `NormalizedEnvWrapper.step_test` (lines 115-122): step the evaluation
environment handle, normalize observations with `update=False`, and return the
rewards, dones and infos exactly as produced by the environment set. -/
def NormalizedEnvWrapper.step_test {E Act Info Sp : Type}
    (veh : VecEnv E Act Info Sp) (w : NormalizedEnvWrapper E)
    (action : List Act) :
    Option (NormalizedEnvWrapper E × List ℚ × List ℚ × List Bool × List Info) := do
  let e ← w.heap.get? w.envs_test
  let (e1, obs, rews, dones, infos) := veh.stepFn e action
  let (obsN, sn1) := w.state_normalizer.call obs false
  some ({ w with heap := w.heap.set w.envs_test e1, state_normalizer := sn1 },
        obsN, rews, dones, infos)

/-- `NormalizedEnvWrapper.reset_test` (lines 124-126): reset the evaluation
environment set and return its initial observations normalized with
`update=False`; the `reset` of neither normalizer is called. -/
def NormalizedEnvWrapper.reset_test {E Act Info Sp : Type}
    (veh : VecEnv E Act Info Sp) (w : NormalizedEnvWrapper E) :
    Option (NormalizedEnvWrapper E × List ℚ) := do
  let e ← w.heap.get? w.envs_test
  let (e1, obs) := veh.resetFn e
  let (obsN, sn1) := w.state_normalizer.call obs false
  some ({ w with heap := w.heap.set w.envs_test e1, state_normalizer := sn1 },
        obsN)

/-- `NormalizedEnvWrapper.reset` (lines 128-134): full reset (no mask) of both
normalizers, reset of the training environment set, and return of the initial
observations passed through the state normalizer with `update=True`.
`last_obs` is not touched by this method. -/
def NormalizedEnvWrapper.reset {E Act Info Sp : Type}
    (veh : VecEnv E Act Info Sp) (w : NormalizedEnvWrapper E) :
    Option (NormalizedEnvWrapper E × List ℚ) := do
  let sn1 := w.state_normalizer.reset none
  let rn1 := w.reward_normalizer.reset none
  let i ← w.envs
  let e ← w.heap.get? i
  let (e1, obs) := veh.resetFn e
  let (obsN, sn2) := sn1.call obs true
  some ({ w with
          heap := w.heap.set i e1
          state_normalizer := sn2
          reward_normalizer := rn1 }, obsN)

/-- `NormalizedEnvWrapper.observation_space` (lines 139-144): the space of
the training handle when `envs` is not `None`, otherwise the space of the
evaluation handle. -/
def NormalizedEnvWrapper.observation_space {E Act Info Sp : Type}
    (veh : VecEnv E Act Info Sp) (w : NormalizedEnvWrapper E) : Option Sp :=
  match w.envs with
  | some i => (w.heap.get? i).map veh.obsSpace
  | none => (w.heap.get? w.envs_test).map veh.obsSpace

/-- `NormalizedEnvWrapper.action_space` (lines 146-151): the space of the
training handle when `envs` is not `None`, otherwise the space of the
evaluation handle. -/
def NormalizedEnvWrapper.action_space {E Act Info Sp : Type}
    (veh : VecEnv E Act Info Sp) (w : NormalizedEnvWrapper E) : Option Sp :=
  match w.envs with
  | some i => (w.heap.get? i).map veh.actSpace
  | none => (w.heap.get? w.envs_test).map veh.actSpace

/-- A concrete environment-set collaborator (state: a step counter, constant
payloads) used to instantiate the theorems below at explicit inputs. -/
def cEnv : VecEnv Nat Nat Nat Nat where
  stepFn := fun e _ => (e + 1, [5, 6], [1, 2], [false, true], [e, e + 1])
  resetFn := fun e => (e + 10, [7, 8])
  obsSpace := fun e => e * 2
  actSpace := fun e => e * 3

/-- A concrete stand-in for the `SubprocVecEnv`-of-factories construction. -/
def cSubproc : Nat → Bool → Nat := fun n b => n + (if b then 100 else 0)

/-- A concrete wrapper built with two training environments. -/
def cWrapper : NormalizedEnvWrapper Nat :=
  mkNormalizedEnvWrapper cEnv cSubproc 2 1000 0 true none false none

/-- Calling a normalizer object with `update=False` leaves the object
unchanged: `BaseNormalizer` is stateless and `MovingAvgNormalizer` skips its
moment update. -/
theorem NormObj.call_update_false (n : NormObj) (x : List ℚ) :
    (n.call x false).2 = n := by
  cases n <;> simp [NormObj.call]

/-- Unfolding equation for `NormalizedEnvWrapper.step` in terms of the raw
environment transition. -/
theorem NormalizedEnvWrapper.step_eq {E Act Info Sp : Type}
    (veh : VecEnv E Act Info Sp) (w : NormalizedEnvWrapper E)
    (i : Nat) (e e1 : E) (actions : List Act)
    (obs rews : List ℚ) (dones : List Bool) (infos : List Info)
    (hi : w.envs = some i) (he : w.heap.get? i = some e)
    (hstep : veh.stepFn e actions = (e1, obs, rews, dones, infos)) :
    w.step veh actions = some
      ({ w with
         heap := w.heap.set i e1
         state_normalizer := ((w.state_normalizer.call obs true).2).reset (some dones)
         reward_normalizer := ((w.reward_normalizer.call rews true).2).reset (some dones)
         last_obs := some (w.state_normalizer.call obs true).1 },
       (w.state_normalizer.call obs true).1,
       (w.reward_normalizer.call rews true).1,
       dones, infos) := by
  have key : w.step veh actions = some
      ({ w with
         heap := w.heap.set i (veh.stepFn e actions).1
         state_normalizer :=
           ((w.state_normalizer.call (veh.stepFn e actions).2.1 true).2).reset
             (some (veh.stepFn e actions).2.2.2.1)
         reward_normalizer :=
           ((w.reward_normalizer.call (veh.stepFn e actions).2.2.1 true).2).reset
             (some (veh.stepFn e actions).2.2.2.1)
         last_obs := some (w.state_normalizer.call (veh.stepFn e actions).2.1 true).1 },
       (w.state_normalizer.call (veh.stepFn e actions).2.1 true).1,
       (w.reward_normalizer.call (veh.stepFn e actions).2.2.1 true).1,
       (veh.stepFn e actions).2.2.2.1, (veh.stepFn e actions).2.2.2.2) := by
    simp only [NormalizedEnvWrapper.step, hi, he, Option.bind_eq_bind,
      Option.some_bind]
  rw [hstep] at key
  exact key

/-- C1: `step(actions)` forwards `actions` to the underlying environment
underlying `step` of the environment set, applies the observation normalizer with `update=True` and the
reward normalizer with `update=True` to the raw streams, then (after
normalizing) calls the per-slot `reset` with the `dones` mask on both
normalizers, and returns the normalized observation batch and normalized
rewards together with the original `dones` and `infos` unchanged. -/
theorem step_forwards_and_normalizes {E Act Info Sp : Type}
    (veh : VecEnv E Act Info Sp) (w : NormalizedEnvWrapper E)
    (i : Nat) (e e1 : E) (actions : List Act)
    (obs rews : List ℚ) (dones : List Bool) (infos : List Info)
    (hi : w.envs = some i) (he : w.heap.get? i = some e)
    (hstep : veh.stepFn e actions = (e1, obs, rews, dones, infos)) :
    w.step veh actions = some
      ({ w with
         heap := w.heap.set i e1
         state_normalizer := ((w.state_normalizer.call obs true).2).reset (some dones)
         reward_normalizer := ((w.reward_normalizer.call rews true).2).reset (some dones)
         last_obs := some (w.state_normalizer.call obs true).1 },
       (w.state_normalizer.call obs true).1,
       (w.reward_normalizer.call rews true).1,
       dones, infos) :=
  NormalizedEnvWrapper.step_eq veh w i e e1 actions obs rews dones infos hi he hstep

/-- Witness for C1 at a concrete wrapper and action batch. -/
theorem step_forwards_and_normalizes_witness :
    cWrapper.step cEnv [1, 2] = some
      ({ cWrapper with
         heap := [113]
         state_normalizer := NormObj.base
         reward_normalizer := NormObj.base
         last_obs := some [5, 6] },
       [5, 6], [1, 2], [false, true], [112, 113]) := by
  have h := step_forwards_and_normalizes cEnv cWrapper 0 112 113 [1, 2]
    [5, 6] [1, 2] [false, true] [112, 113] rfl rfl rfl
  rw [h]; rfl

/-- Unfolding equation for `NormalizedEnvWrapper.step_test` in terms of the
raw environment transition. -/
theorem NormalizedEnvWrapper.step_test_eq {E Act Info Sp : Type}
    (veh : VecEnv E Act Info Sp) (w : NormalizedEnvWrapper E)
    (e e1 : E) (action : List Act)
    (obs rews : List ℚ) (dones : List Bool) (infos : List Info)
    (he : w.heap.get? w.envs_test = some e)
    (hstep : veh.stepFn e action = (e1, obs, rews, dones, infos)) :
    w.step_test veh action = some
      ({ w with heap := w.heap.set w.envs_test e1 },
       (w.state_normalizer.call obs false).1,
       rews, dones, infos) := by
  have key : w.step_test veh action = some
      ({ w with
         heap := w.heap.set w.envs_test (veh.stepFn e action).1
         state_normalizer :=
           (w.state_normalizer.call (veh.stepFn e action).2.1 false).2 },
       (w.state_normalizer.call (veh.stepFn e action).2.1 false).1,
       (veh.stepFn e action).2.2.1, (veh.stepFn e action).2.2.2.1,
       (veh.stepFn e action).2.2.2.2) := by
    simp only [NormalizedEnvWrapper.step_test, he, Option.bind_eq_bind,
      Option.some_bind]
  rw [hstep, NormObj.call_update_false] at key
  exact key

/-- C2: `step_test(action)` steps the evaluation environment handle,
normalizes the returned observations with `update=False`, and returns the
rewards exactly as produced by the underlying environment set — no reward
normalization — with `dones` and `infos` passed through unchanged (and the
reward normalizer untouched). -/
theorem step_test_raw_rewards {E Act Info Sp : Type}
    (veh : VecEnv E Act Info Sp) (w : NormalizedEnvWrapper E)
    (e e1 : E) (action : List Act)
    (obs rews : List ℚ) (dones : List Bool) (infos : List Info)
    (he : w.heap.get? w.envs_test = some e)
    (hstep : veh.stepFn e action = (e1, obs, rews, dones, infos)) :
    w.step_test veh action = some
      ({ w with heap := w.heap.set w.envs_test e1 },
       (w.state_normalizer.call obs false).1,
       rews, dones, infos) :=
  NormalizedEnvWrapper.step_test_eq veh w e e1 action obs rews dones infos he hstep

/-- Witness for C2 at a concrete wrapper and action batch. -/
theorem step_test_raw_rewards_witness :
    cWrapper.step_test cEnv [1, 2] = some
      ({ cWrapper with heap := [113] },
       [5, 6], [1, 2], [false, true], [112, 113]) := by
  have h := step_test_raw_rewards cEnv cWrapper 112 113 [1, 2]
    [5, 6] [1, 2] [false, true] [112, 113] rfl rfl
  rw [h]; rfl

/-- Unfolding equation for `NormalizedEnvWrapper.reset` in terms of the raw
environment reset. -/
theorem NormalizedEnvWrapper.reset_eq {E Act Info Sp : Type}
    (veh : VecEnv E Act Info Sp) (w : NormalizedEnvWrapper E)
    (i : Nat) (e e1 : E) (obs : List ℚ)
    (hi : w.envs = some i) (he : w.heap.get? i = some e)
    (hres : veh.resetFn e = (e1, obs)) :
    w.reset veh = some
      ({ w with
         heap := w.heap.set i e1
         state_normalizer := ((w.state_normalizer.reset none).call obs true).2
         reward_normalizer := w.reward_normalizer.reset none },
       ((w.state_normalizer.reset none).call obs true).1) := by
  have key : w.reset veh = some
      ({ w with
         heap := w.heap.set i (veh.resetFn e).1
         state_normalizer :=
           ((w.state_normalizer.reset none).call (veh.resetFn e).2 true).2
         reward_normalizer := w.reward_normalizer.reset none },
       ((w.state_normalizer.reset none).call (veh.resetFn e).2 true).1) := by
    simp only [NormalizedEnvWrapper.reset, hi, he, Option.bind_eq_bind,
      Option.some_bind]
  rw [hres] at key
  exact key

/-- C3: `reset()` resets both the observation normalizer and the reward
normalizer to their zero state (full reset, no done mask), resets the
underlying parallel environment set, and returns the initial batch of
observations passed through the observation normalizer with `update=True`. -/
theorem reset_resets_normalizers_and_envs {E Act Info Sp : Type}
    (veh : VecEnv E Act Info Sp) (w : NormalizedEnvWrapper E)
    (i : Nat) (e e1 : E) (obs : List ℚ)
    (hi : w.envs = some i) (he : w.heap.get? i = some e)
    (hres : veh.resetFn e = (e1, obs)) :
    w.reset veh = some
      ({ w with
         heap := w.heap.set i e1
         state_normalizer := ((w.state_normalizer.reset none).call obs true).2
         reward_normalizer := w.reward_normalizer.reset none },
       ((w.state_normalizer.reset none).call obs true).1) :=
  NormalizedEnvWrapper.reset_eq veh w i e e1 obs hi he hres

/-- Witness for C3 at a concrete wrapper. -/
theorem reset_resets_normalizers_and_envs_witness :
    cWrapper.reset cEnv = some
      ({ cWrapper with
         heap := [122]
         state_normalizer := NormObj.base
         reward_normalizer := NormObj.base }, [7, 8]) := by
  have h := reset_resets_normalizers_and_envs cEnv cWrapper 0 112 122 [7, 8]
    rfl rfl rfl
  rw [h]; rfl

/-- Unfolding equation for `NormalizedEnvWrapper.reset_test` in terms of the
raw environment reset. -/
theorem NormalizedEnvWrapper.reset_test_eq {E Act Info Sp : Type}
    (veh : VecEnv E Act Info Sp) (w : NormalizedEnvWrapper E)
    (e e1 : E) (obs : List ℚ)
    (he : w.heap.get? w.envs_test = some e)
    (hres : veh.resetFn e = (e1, obs)) :
    w.reset_test veh = some
      ({ w with heap := w.heap.set w.envs_test e1 },
       (w.state_normalizer.call obs false).1) := by
  have key : w.reset_test veh = some
      ({ w with
         heap := w.heap.set w.envs_test (veh.resetFn e).1
         state_normalizer :=
           (w.state_normalizer.call (veh.resetFn e).2 false).2 },
       (w.state_normalizer.call (veh.resetFn e).2 false).1) := by
    simp only [NormalizedEnvWrapper.reset_test, he, Option.bind_eq_bind,
      Option.some_bind]
  rw [hres, NormObj.call_update_false] at key
  exact key

/-- C5: `reset_test()` resets only the evaluation environment set and returns
its initial observations normalized with `update=False`; it calls `reset` on
neither normalizer, so the accumulated normalization statistics (and
`last_obs`) are unchanged. -/
theorem reset_test_resets_env_only {E Act Info Sp : Type}
    (veh : VecEnv E Act Info Sp) (w : NormalizedEnvWrapper E)
    (e e1 : E) (obs : List ℚ)
    (he : w.heap.get? w.envs_test = some e)
    (hres : veh.resetFn e = (e1, obs)) :
    w.reset_test veh = some
      ({ w with heap := w.heap.set w.envs_test e1 },
       (w.state_normalizer.call obs false).1) ∧
    ∀ r, w.reset_test veh = some r →
      r.1.state_normalizer = w.state_normalizer ∧
      r.1.reward_normalizer = w.reward_normalizer ∧
      r.1.last_obs = w.last_obs := by
  have h := NormalizedEnvWrapper.reset_test_eq veh w e e1 obs he hres
  refine ⟨h, ?_⟩
  intro r hr
  rw [h] at hr
  cases hr
  exact ⟨rfl, rfl, rfl⟩

/-- Witness for C5 at a concrete wrapper. -/
theorem reset_test_resets_env_only_witness :
    cWrapper.reset_test cEnv = some ({ cWrapper with heap := [122] }, [7, 8]) ∧
    ({ cWrapper with heap := [122] } : NormalizedEnvWrapper Nat).reward_normalizer
      = cWrapper.reward_normalizer := by
  have h := reset_test_resets_env_only cEnv cWrapper 112 122 [7, 8] rfl rfl
  refine ⟨h.1.trans (by rfl), ?_⟩
  exact (h.2 ({ cWrapper with heap := [122] }, [7, 8]) (h.1.trans (by rfl))).2.1

/-- A successful `step_test` call leaves the normalizer objects and `last_obs`
unchanged (only the environment object advances). -/
theorem step_test_frame {E Act Info Sp : Type} (veh : VecEnv E Act Info Sp)
    (w : NormalizedEnvWrapper E) (a : List Act)
    (r : NormalizedEnvWrapper E × List ℚ × List ℚ × List Bool × List Info)
    (h : w.step_test veh a = some r) :
    r.1.state_normalizer = w.state_normalizer ∧
    r.1.reward_normalizer = w.reward_normalizer ∧
    r.1.last_obs = w.last_obs := by
  cases hg : w.heap.get? w.envs_test with
  | none =>
      simp only [NormalizedEnvWrapper.step_test, hg, Option.bind_eq_bind,
        Option.none_bind] at h
      exact Option.noConfusion h
  | some e =>
      simp only [NormalizedEnvWrapper.step_test, hg, Option.bind_eq_bind,
        Option.some_bind, Option.some.injEq] at h
      subst h
      exact ⟨NormObj.call_update_false _ _, rfl, rfl⟩

/-- A successful `reset_test` call leaves the normalizer objects and
`last_obs` unchanged (only the environment object is reset). -/
theorem reset_test_frame {E Act Info Sp : Type} (veh : VecEnv E Act Info Sp)
    (w : NormalizedEnvWrapper E) (r : NormalizedEnvWrapper E × List ℚ)
    (h : w.reset_test veh = some r) :
    r.1.state_normalizer = w.state_normalizer ∧
    r.1.reward_normalizer = w.reward_normalizer ∧
    r.1.last_obs = w.last_obs := by
  cases hg : w.heap.get? w.envs_test with
  | none =>
      simp only [NormalizedEnvWrapper.reset_test, hg, Option.bind_eq_bind,
        Option.none_bind] at h
      exact Option.noConfusion h
  | some e =>
      simp only [NormalizedEnvWrapper.reset_test, hg, Option.bind_eq_bind,
        Option.some_bind, Option.some.injEq] at h
      subst h
      exact ⟨NormObj.call_update_false _ _, rfl, rfl⟩

/-- An evaluation-mode call as issued by a driver between training-mode
calls: a `step_test` with some action batch, or a `reset_test`. -/
inductive TestOp (Act : Type) where
  | stepT (a : List Act) : TestOp Act
  | resetT : TestOp Act

/-- The wrapper state after a `step_test` call (unchanged when the call
fails). -/
def afterStepTest {E Act Info Sp : Type} (veh : VecEnv E Act Info Sp)
    (w : NormalizedEnvWrapper E) (a : List Act) : NormalizedEnvWrapper E :=
  match w.step_test veh a with
  | some r => r.1
  | none => w

/-- The wrapper state after a `reset_test` call (unchanged when the call
fails). -/
def afterResetTest {E Act Info Sp : Type} (veh : VecEnv E Act Info Sp)
    (w : NormalizedEnvWrapper E) : NormalizedEnvWrapper E :=
  match w.reset_test veh with
  | some r => r.1
  | none => w

/-- The wrapper state after one evaluation-mode call. -/
def afterTestOp {E Act Info Sp : Type} (veh : VecEnv E Act Info Sp)
    (w : NormalizedEnvWrapper E) : TestOp Act → NormalizedEnvWrapper E
  | .stepT a => afterStepTest veh w a
  | .resetT => afterResetTest veh w

/-- The wrapper state after a sequence of evaluation-mode calls. -/
def runTestOps {E Act Info Sp : Type} (veh : VecEnv E Act Info Sp)
    (ops : List (TestOp Act)) (w : NormalizedEnvWrapper E) :
    NormalizedEnvWrapper E :=
  ops.foldl (afterTestOp veh) w

/-- A `step_test` call preserves the normalizer objects and `last_obs`. -/
theorem afterStepTest_frame {E Act Info Sp : Type} (veh : VecEnv E Act Info Sp)
    (w : NormalizedEnvWrapper E) (a : List Act) :
    (afterStepTest veh w a).state_normalizer = w.state_normalizer ∧
    (afterStepTest veh w a).reward_normalizer = w.reward_normalizer ∧
    (afterStepTest veh w a).last_obs = w.last_obs := by
  unfold afterStepTest
  cases hg : w.step_test veh a with
  | none => exact ⟨rfl, rfl, rfl⟩
  | some r => exact step_test_frame veh w a r hg

/-- A `reset_test` call preserves the normalizer objects and `last_obs`. -/
theorem afterResetTest_frame {E Act Info Sp : Type} (veh : VecEnv E Act Info Sp)
    (w : NormalizedEnvWrapper E) :
    (afterResetTest veh w).state_normalizer = w.state_normalizer ∧
    (afterResetTest veh w).reward_normalizer = w.reward_normalizer ∧
    (afterResetTest veh w).last_obs = w.last_obs := by
  unfold afterResetTest
  cases hg : w.reset_test veh with
  | none => exact ⟨rfl, rfl, rfl⟩
  | some r => exact reset_test_frame veh w r hg

/-- One evaluation-mode call preserves the normalizer objects and
`last_obs`. -/
theorem afterTestOp_frame {E Act Info Sp : Type} (veh : VecEnv E Act Info Sp)
    (w : NormalizedEnvWrapper E) (op : TestOp Act) :
    (afterTestOp veh w op).state_normalizer = w.state_normalizer ∧
    (afterTestOp veh w op).reward_normalizer = w.reward_normalizer ∧
    (afterTestOp veh w op).last_obs = w.last_obs := by
  cases op with
  | stepT a => exact afterStepTest_frame veh w a
  | resetT => exact afterResetTest_frame veh w

/-- C4: evaluation isolation — inserting any sequence of `step_test` /
`reset_test` calls (which apply the normalizer with `update=False`) leaves
both normalizer objects of the wrapper exactly as they were, so every
subsequent `update=True` normalization result on any sample is identical to
the result in a run where the evaluation calls never occurred. -/
theorem eval_isolation {E Act Info Sp : Type} (veh : VecEnv E Act Info Sp)
    (ops : List (TestOp Act)) (w : NormalizedEnvWrapper E) :
    (runTestOps veh ops w).state_normalizer = w.state_normalizer ∧
    (runTestOps veh ops w).reward_normalizer = w.reward_normalizer ∧
    ∀ x : List ℚ,
      (runTestOps veh ops w).state_normalizer.call x true
        = w.state_normalizer.call x true ∧
      (runTestOps veh ops w).reward_normalizer.call x true
        = w.reward_normalizer.call x true := by
  induction ops generalizing w with
  | nil => exact ⟨rfl, rfl, fun x => ⟨rfl, rfl⟩⟩
  | cons op rest ih =>
      have hframe := afterTestOp_frame veh w op
      have hrest := ih (afterTestOp veh w op)
      have hrun : runTestOps veh (op :: rest) w
          = runTestOps veh rest (afterTestOp veh w op) := rfl
      rw [hrun]
      exact ⟨hrest.1.trans hframe.1, hrest.2.1.trans hframe.2.1,
        fun x => ⟨by rw [hrest.1, hframe.1], by rw [hrest.2.1, hframe.2.1]⟩⟩

/-- A wrapper state whose training reference is dead, exercising the fallback
branch of the space properties. -/
def cWrapperNone : NormalizedEnvWrapper Nat := { cWrapper with envs := none }

/-- C6 counterexample: constructing with `n_envs = 0` still assigns the
environment set to `envs` (lines 73-74 run unconditionally), so `envs` is
`some 0`, not `None`, and the training branch — not the fallback branch — of
the space properties is taken; the claim that no training environment set
exists in this mode is false on the code. -/
theorem spaces_fallback_counterexample :
    (mkNormalizedEnvWrapper cEnv cSubproc 0 1000 0 true none false none).envs
      = some 0 ∧
    ¬ (mkNormalizedEnvWrapper cEnv cSubproc 0 1000 0 true none false none).envs
      = none := by
  refine ⟨by decide, by decide⟩

/-- C6 (amended): the space properties return the space of the training
handle whenever `envs` is not `None` and fall back to the evaluation handle
when `envs` is `None`; however every constructed wrapper — including the
`n_envs = 0` mode — has `envs = some 0`, so on constructed wrappers the
fallback branch is never the one taken. -/
theorem spaces_prefer_training_handle {E Act Info Sp : Type}
    (veh : VecEnv E Act Info Sp) (w : NormalizedEnvWrapper E) :
    (∀ i, w.envs = some i →
       w.observation_space veh = (w.heap.get? i).map veh.obsSpace ∧
       w.action_space veh = (w.heap.get? i).map veh.actSpace) ∧
    (w.envs = none →
       w.observation_space veh = (w.heap.get? w.envs_test).map veh.obsSpace ∧
       w.action_space veh = (w.heap.get? w.envs_test).map veh.actSpace) ∧
    ∀ (subproc : Nat → Bool → E) (n_envs mel : Nat) (gamma : ℚ) (no : Bool)
      (co : Option ℚ) (nr : Bool) (cr : Option ℚ),
      (mkNormalizedEnvWrapper veh subproc n_envs mel gamma no co nr cr).envs
        = some 0 := by
  refine ⟨?_, ?_, ?_⟩
  · intro i hi
    constructor <;>
      simp [NormalizedEnvWrapper.observation_space,
        NormalizedEnvWrapper.action_space, hi]
  · intro hn
    constructor <;>
      simp [NormalizedEnvWrapper.observation_space,
        NormalizedEnvWrapper.action_space, hn]
  · intro subproc n_envs mel gamma no co nr cr
    cases n_envs with
    | zero => rfl
    | succ m => rfl

/-- Witness for the amended statement of C6: the training branch value at a live
wrapper, the fallback value at a dead-reference state, and the constructed
`envs` reference at `n_envs = 0`. -/
theorem spaces_prefer_training_handle_witness :
    cWrapper.observation_space cEnv = some 224 ∧
    cWrapperNone.observation_space cEnv = some 224 ∧
    (mkNormalizedEnvWrapper cEnv cSubproc 0 1000 0 true none false none).envs
      = some 0 := by
  refine ⟨?_, ?_, ?_⟩
  · exact (((spaces_prefer_training_handle cEnv cWrapper).1 0 rfl).1).trans
      (by decide)
  · exact (((spaces_prefer_training_handle cEnv cWrapperNone).2.1 rfl).1).trans
      (by decide)
  · exact (spaces_prefer_training_handle cEnv cWrapper).2.2 cSubproc 0 1000 0
      true none false none

/-- C7: constructing with `n_envs = 0` skips the initial environment reset
(the allocated environment object is left untouched) and leaves `last_obs`
unset — so a `step` issued before any `reset` in this mode runs against an
uninitialized `last_obs`; constructing with `n_envs > 0` performs the initial
reset and seeds `last_obs` with the raw initial observations. -/
theorem init_reset_seeds_last_obs {E Act Info Sp : Type}
    (veh : VecEnv E Act Info Sp) (subproc : Nat → Bool → E) (mel : Nat)
    (gamma : ℚ) (no : Bool) (co : Option ℚ) (nr : Bool) (cr : Option ℚ) :
    (mkNormalizedEnvWrapper veh subproc 0 mel gamma no co nr cr).last_obs
      = none ∧
    (mkNormalizedEnvWrapper veh subproc 0 mel gamma no co nr cr).heap
      = [subproc 0 no] ∧
    ∀ n : Nat, n ≠ 0 →
      (mkNormalizedEnvWrapper veh subproc n mel gamma no co nr cr).last_obs
        = some (veh.resetFn (subproc n no)).2 ∧
      (mkNormalizedEnvWrapper veh subproc n mel gamma no co nr cr).heap
        = [(veh.resetFn (subproc n no)).1] := by
  refine ⟨rfl, rfl, ?_⟩
  intro n hn
  cases n with
  | zero => exact absurd rfl hn
  | succ m => exact ⟨rfl, rfl⟩

/-- Witness for C7 at the concrete constructions with zero and two training
environments. -/
theorem init_reset_seeds_last_obs_witness :
    (mkNormalizedEnvWrapper cEnv cSubproc 0 1000 0 true none false none).last_obs
      = none ∧
    cWrapper.last_obs = some [7, 8] := by
  have h := init_reset_seeds_last_obs cEnv cSubproc 1000 0 true none false none
  exact ⟨h.1, (h.2.2 2 (by decide)).1⟩

/-- C8: identity property — the no-op normalizer configuration
`center=False, scale=False, clip=None` (the `BaseNormalizer` variant the
wrapper installs as its state normalizer) returns its input unchanged for
every input, and never observably mutates its running-moment accumulators:
the `BaseNormalizer` object is returned unchanged with its output equal to
the input, and even a `MovingAvgNormalizer` carrying that no-op configuration
transforms every sample to itself for every accumulator state and update
flag. -/
theorem noop_normalizer_identity :
    (∀ (x : List ℚ) (u : Bool), NormObj.base.call x u = (x, NormObj.base)) ∧
    ∀ (gamma : ℚ) (st : MovingAvgState) (x : List ℚ) (u : Bool),
      ((NormObj.movingAvg ⟨false, false, gamma, none⟩ st).call x u).1 = x := by
  refine ⟨fun x u => rfl, fun gamma st x u => ?_⟩
  simp [NormObj.call, normalizeWith]

/-- C9: in every constructed wrapper, `envs` and `envs_test` reference the
same environment-set object (line 74: `self.envs_test = self.envs`);
consequently `step_test` advances and `reset_test` resets exactly the object
the training-mode `step`/`reset` operate on — after the call, the cell behind
the training reference holds the stepped (respectively reset) environment
state. -/
theorem envs_test_aliases_envs {E Act Info Sp : Type}
    (veh : VecEnv E Act Info Sp) (subproc : Nat → Bool → E)
    (n_envs mel : Nat) (gamma : ℚ) (no : Bool) (co : Option ℚ) (nr : Bool)
    (cr : Option ℚ) :
    (mkNormalizedEnvWrapper veh subproc n_envs mel gamma no co nr cr).envs
      = some (mkNormalizedEnvWrapper veh subproc n_envs mel gamma no co nr cr).envs_test ∧
    (∀ (w : NormalizedEnvWrapper E) (a : List Act) (e : E)
       (r : NormalizedEnvWrapper E × List ℚ × List ℚ × List Bool × List Info),
       w.envs = some w.envs_test → w.heap.get? w.envs_test = some e →
       w.step_test veh a = some r →
       ∀ j, w.envs = some j → r.1.heap.get? j = some (veh.stepFn e a).1) ∧
    (∀ (w : NormalizedEnvWrapper E) (e : E)
       (r : NormalizedEnvWrapper E × List ℚ),
       w.envs = some w.envs_test → w.heap.get? w.envs_test = some e →
       w.reset_test veh = some r →
       ∀ j, w.envs = some j → r.1.heap.get? j = some (veh.resetFn e).1) := by
  refine ⟨?_, ?_, ?_⟩
  · cases n_envs with
    | zero => rfl
    | succ m => rfl
  · intro w a e r h1 h2 h3 j hj
    have hj2 : j = w.envs_test := Option.some.inj (hj.symm.trans h1)
    subst hj2
    have hst := NormalizedEnvWrapper.step_test_eq veh w e (veh.stepFn e a).1 a
      (veh.stepFn e a).2.1 (veh.stepFn e a).2.2.1 (veh.stepFn e a).2.2.2.1
      (veh.stepFn e a).2.2.2.2 h2 rfl
    rw [hst] at h3
    injection h3 with h4
    subst h4
    show (w.heap.set w.envs_test (veh.stepFn e a).1).get? w.envs_test
      = some (veh.stepFn e a).1
    rw [List.get?_set_eq, h2]
    rfl
  · intro w e r h1 h2 h3 j hj
    have hj2 : j = w.envs_test := Option.some.inj (hj.symm.trans h1)
    subst hj2
    have hrs := NormalizedEnvWrapper.reset_test_eq veh w e (veh.resetFn e).1
      (veh.resetFn e).2 h2 rfl
    rw [hrs] at h3
    injection h3 with h4
    subst h4
    show (w.heap.set w.envs_test (veh.resetFn e).1).get? w.envs_test
      = some (veh.resetFn e).1
    rw [List.get?_set_eq, h2]
    rfl

/-- Witness for C9: aliasing on the concrete wrapper, and a concrete
`step_test` that advances the cell behind the training reference. -/
theorem envs_test_aliases_envs_witness :
    cWrapper.envs = some cWrapper.envs_test ∧
    ({ cWrapper with heap := [113] } : NormalizedEnvWrapper Nat).heap.get? 0
      = some 113 := by
  have h := envs_test_aliases_envs cEnv cSubproc 2 1000 0 true none false none
  refine ⟨h.1, ?_⟩
  exact h.2.1 cWrapper [1, 2] 112
    ({ cWrapper with heap := [113] }, [5, 6], [1, 2], [false, true], [112, 113])
    rfl rfl rfl 0 rfl

/-- C10: the state normalizer of the wrapper is the pass-through `BaseNormalizer`
for every construction, regardless of `norm_obs` (the `MovingAvgNormalizer`
wrapping of observations at lines 86-89 is disabled); `norm_obs` reaches only
the `normalize_obs` argument forwarded to the external environment factory,
and with the `BaseNormalizer` installed, `step` and `reset` return the raw
observation batches unchanged — the wrapper itself applies no statistical
observation normalization. -/
theorem state_normalizer_is_base {E Act Info Sp : Type}
    (veh : VecEnv E Act Info Sp) (subproc : Nat → Bool → E)
    (n_envs mel : Nat) (gamma : ℚ) (no : Bool) (co : Option ℚ) (nr : Bool)
    (cr : Option ℚ) :
    (mkNormalizedEnvWrapper veh subproc n_envs mel gamma no co nr cr).state_normalizer
      = NormObj.base ∧
    (mkNormalizedEnvWrapper veh subproc n_envs mel gamma no co nr cr).heap
      = [if n_envs ≠ 0 then (veh.resetFn (subproc n_envs no)).1
         else subproc n_envs no] ∧
    ∀ (w : NormalizedEnvWrapper E), w.state_normalizer = NormObj.base →
      (∀ (i : Nat) (e : E) (a : List Act)
         (r : NormalizedEnvWrapper E × List ℚ × List ℚ × List Bool × List Info),
         w.envs = some i → w.heap.get? i = some e → w.step veh a = some r →
         r.2.1 = (veh.stepFn e a).2.1) ∧
      (∀ (i : Nat) (e : E) (r : NormalizedEnvWrapper E × List ℚ),
         w.envs = some i → w.heap.get? i = some e → w.reset veh = some r →
         r.2 = (veh.resetFn e).2) := by
  refine ⟨?_, ?_, ?_⟩
  · cases n_envs with
    | zero => rfl
    | succ m => rfl
  · cases n_envs with
    | zero => rfl
    | succ m => rfl
  · intro w hw
    constructor
    · intro i e a r h1 h2 h3
      have hst := NormalizedEnvWrapper.step_eq veh w i e (veh.stepFn e a).1 a
        (veh.stepFn e a).2.1 (veh.stepFn e a).2.2.1 (veh.stepFn e a).2.2.2.1
        (veh.stepFn e a).2.2.2.2 h1 h2 rfl
      rw [hst] at h3
      injection h3 with h4
      subst h4
      show (w.state_normalizer.call (veh.stepFn e a).2.1 true).1
        = (veh.stepFn e a).2.1
      rw [hw]
      rfl
    · intro i e r h1 h2 h3
      have hrs := NormalizedEnvWrapper.reset_eq veh w i e (veh.resetFn e).1
        (veh.resetFn e).2 h1 h2 rfl
      rw [hrs] at h3
      injection h3 with h4
      subst h4
      show ((w.state_normalizer.reset none).call (veh.resetFn e).2 true).1
        = (veh.resetFn e).2
      rw [hw]
      rfl

/-- Witness for C10: a construction with `norm_obs = false` still installs the
`BaseNormalizer`, and a concrete `step` returns the raw observation batch. -/
theorem state_normalizer_is_base_witness :
    (mkNormalizedEnvWrapper cEnv cSubproc 2 1000 0 false none false
        none).state_normalizer = NormObj.base ∧
    ([5, 6] : List ℚ) = (cEnv.stepFn 112 [1, 2]).2.1 := by
  have hf := state_normalizer_is_base cEnv cSubproc 2 1000 0 false none false none
  have ht := state_normalizer_is_base cEnv cSubproc 2 1000 0 true none false none
  refine ⟨hf.1, ?_⟩
  exact (ht.2.2 cWrapper rfl).1 0 112 [1, 2]
    (⟨[113], some 0, 0, 1000, true, none, false, none, NormObj.base,
      NormObj.base, some [5, 6]⟩, [5, 6], [1, 2], [false, true], [112, 113])
    rfl rfl rfl
